import Mathlib

/-!
Shallow embedding of `main.py` of the cw-ScoreRate-Analyzer plugin.

The plugin periodically polls a homework-grading API: a GET request fetches
homework/class metadata, IDs extracted from the GET body are chained into a
POST request, and the POST body (a JSON value) is the poll result.  Formatting
turns the well-formed result into a report string; a cache `previous_data`
holds the last successful result and is used as fallback on failure.

Python values are embedded as follows: JSON `null` / absent dictionary keys
become `Option.none`; `str(x)` becomes `pyStr`-style functions; exceptions
become `Except String`; the truthiness test `if x:` on the fetched JSON value
becomes `pyTruthy`.
-/

/-- One entry of `homeworkVOList` in the GET response: `templateId` is `null`
or an integer, `homeworkIds` is a list of integers. -/
structure Homework where
  templateId : Option Int
  homeworkIds : List Int
  deriving Repr, DecidableEq

/-- One entry of `homeworkCourseVOList` in the GET response. -/
structure Course where
  homeworkVOList : List Homework
  deriving Repr, DecidableEq

/-- One entry of `classVOList` in the GET response. -/
structure ClassVO where
  classId : String
  deriving Repr, DecidableEq

/-- The `data` object of a GET response that parses and from which the three
ID extractions succeed.  A GET body whose shape makes `response_get.json()`
or any of the bracket accesses raise is modelled as a parse error instead. -/
structure GetData where
  homeworkCourseVOList : List Course
  classVOList : List ClassVO
  deriving Repr, DecidableEq

/-- `[str(homework['templateId']) for course in data['data']['homeworkCourseVOList']
for homework in course['homeworkVOList'] if homework['templateId'] is not None]`:
iterate courses in order, homeworks in order, keep non-null template IDs,
convert each to its decimal string. -/
def extract_template_ids (courses : List Course) : List String :=
  (courses.map (fun course =>
    course.homeworkVOList.filterMap
      (fun homework => homework.templateId.map (fun t => toString t)))).flatten

/-- `[homework_id for course in ... for homework in course['homeworkVOList']
for homework_id in homework['homeworkIds']]`: concatenation of every
homework's `homeworkIds`, in iteration order, with no filtering. -/
def extract_homework_ids (courses : List Course) : List Int :=
  (courses.map (fun course =>
    (course.homeworkVOList.map (fun homework => homework.homeworkIds)).flatten)).flatten

/-- `[cls['classId'] for cls in data['data']['classVOList']]`. -/
def extract_class_ids (classes : List ClassVO) : List String :=
  classes.map (fun cls => cls.classId)

/-- The JSON payload of the POST request built on lines 127-135 of `main.py`. -/
structure Payload where
  schoolId : String
  gradeId : String
  templateIds : List String
  homeworkIds : List Int
  schoolYearName : String
  isHistory : Bool
  classIds : List String
  deriving Repr, DecidableEq

/-- The POST payload as a function of the parsed GET body.  The literal
parameters mirror `params_get`; `isHistory` is
`params_get['isHistory'].lower() == 'true'` with `params_get['isHistory']`
being the literal `'false'`. -/
def build_payload (d : GetData) : Payload :=
  { schoolId := "123204"
    gradeId := "10024"
    templateIds := extract_template_ids d.homeworkCourseVOList
    homeworkIds := extract_homework_ids d.homeworkCourseVOList
    schoolYearName := "2024-2025"
    isHistory := ("false".toLower == "true")
    classIds := extract_class_ids d.classVOList }

/-- One entry of `courseVOList` in the POST result: both keys are accessed
with brackets, so they are present in a well-formed result. -/
structure CourseVO where
  courseId : String
  courseName : String
  deriving Repr, DecidableEq

/-- One entry of a `courseScoreRate` list.  Both fields are read with
`.get`, so each is `null`/absent (`none`) or a string (the API serialises
score rates as strings such as `"85.2"` or the placeholder `"-"`). -/
structure CourseScoreRecord where
  courseId : Option String
  scoreRate : Option String
  deriving Repr, DecidableEq

/-- One entry of `scoreRateVOList` in the POST result.  `classId` and
`className` are read with `.get`; `courseScoreRate` is read with
`.get(_, [])`, so an absent list behaves as `[]`. -/
structure ScoreRateVO where
  classId : Option String
  className : Option String
  courseScoreRate : List CourseScoreRecord
  deriving Repr, DecidableEq

/-- The `data` object of a POST result of the report shape. -/
structure ReportData where
  courseVOList : List CourseVO
  scoreRateVOList : List ScoreRateVO
  deriving Repr, DecidableEq

/-- The JSON value returned by `response_post.json()` (and hence the value
cached in `previous_data`).
* `obj d`: an object `\x7b"data": ...\x7d` of the report shape (truthy: a
  non-empty Python dict);
* `str s`: a JSON string (its Python truthiness is non-emptiness);
* `raw b`: any other JSON value, not of the report shape, with `b` its
  Python truthiness — e.g. `raw false` models the empty object `\x7b\x7d`. -/
inductive Fetched where
  | obj (d : ReportData)
  | str (s : String)
  | raw (truthy : Bool)
  deriving Repr, DecidableEq

/-- Python truthiness of a fetched JSON value. -/
def pyTruthy : Fetched → Bool
  | .obj _ => true
  | .str s => s ≠ ""
  | .raw b => b

/-- An HTTP response: a status code and the result of `.json()` on the body
(`Except.error` when parsing, or for the GET the subsequent ID extraction,
raises). -/
structure HttpResp (β : Type) where
  status_code : Nat
  body : Except String β
  deriving Repr

/-- The network environment for one poll: what the GET returns, and what the
POST returns as a function of its payload.  An `Except.error` at the outer
level models the `requests` call itself raising (e.g. a connection error). -/
structure Env where
  get_response : Except String (HttpResp GetData)
  post_response : Payload → Except String (HttpResp Fetched)

/-- A record of one HTTP request issued during a poll, with the headers it
was sent with. -/
inductive HttpCall where
  | get (headers : List (String × String))
  | post (headers : List (String × String)) (payload : Payload)
  deriving Repr, DecidableEq

/-- The headers a recorded call was sent with. -/
def HttpCall.headersOf : HttpCall → List (String × String)
  | .get h => h
  | .post h _ => h

/-- The `try` block of `fetch_and_update_data` (lines 104-147): GET, check
status 200, parse and extract, build the payload, POST, check status 200,
return `response_post.json()`.  Returns the result (or the exception) and
the list of HTTP requests actually issued, in order. -/
def attempt_fetch (headers : List (String × String)) (env : Env) :
    Except String Fetched × List HttpCall :=
  match env.get_response with
  | .error e => (.error e, [.get headers])
  | .ok rg =>
    if rg.status_code ≠ 200 then
      (.error ("GET请求失败，状态码：" ++ toString rg.status_code), [.get headers])
    else
      match rg.body with
      | .error e => (.error e, [.get headers])
      | .ok d =>
        let payload := build_payload d
        match env.post_response payload with
        | .error e => (.error e, [.get headers, .post headers payload])
        | .ok rp =>
          if rp.status_code ≠ 200 then
            (.error ("POST请求失败，状态码：" ++ toString rp.status_code),
             [.get headers, .post headers payload])
          else
            (rp.body, [.get headers, .post headers payload])

/-- `fetch_and_update_data` (lines 92-155): the `try` block above with the
`except` clause, which logs and returns `self.previous_data` when that value
is truthy (`if self.previous_data:`) and otherwise re-raises. -/
def fetch_and_update_data (headers : List (String × String)) (env : Env)
    (previous_data : Option Fetched) : Except String Fetched × List HttpCall :=
  match attempt_fetch headers env with
  | (.ok d, calls) => (.ok d, calls)
  | (.error _, calls) =>
    match previous_data with
    | some pd =>
      if pyTruthy pd then (.ok pd, calls)
      else (.error "无法获取数据且没有之前的数据可用", calls)
    | none => (.error "无法获取数据且没有之前的数据可用", calls)

/-- `str(x)` for an optional string value: Python renders `None` as the text
`"None"` inside an f-string. -/
def pyStrOpt (v : Option String) : String :=
  match v with
  | none => "None"
  | some s => s

/-- `get_score_rate` (lines 166-170): first record of the list whose
`courseId` equals the target (via `.get`, so an absent key is `None` and
never equals a string target); its `scoreRate` via `.get`; `None` when no
record matches or the field is absent. -/
def get_score_rate (course_score_rate_list : List CourseScoreRecord)
    (target_course_id : String) : Option String :=
  (course_score_rate_list.find?
    (fun item => item.courseId == some target_course_id)).bind
    (fun item => item.scoreRate)

/-- `f"\x7bscore_rate\x7d%" if score_rate != "-" else score_rate`: the `%`
suffix is appended unless the value is the literal string `"-"`; a `None`
value therefore renders as `"None%"`. -/
def score_rate_str (score_rate : Option String) : String :=
  if score_rate == some "-" then "-" else pyStrOpt score_rate ++ "%"

/-- `course_mapping.get(course_id, f"未知科目(\x7bcourse_id\x7d)")` where
`course_mapping` is the dict comprehension over `courseVOList` (a later entry
with the same `courseId` overwrites an earlier one, hence the reversed
search). -/
def course_mapping_get (course_list : List CourseVO) (course_id : Option String) :
    String :=
  match course_list.reverse.find? (fun course => some course.courseId == course_id) with
  | some course => course.courseName
  | none => "未知科目(" ++ pyStrOpt course_id ++ ")"

/-- The lines contributed by one `courseScoreRate` record inside a section:
records with `courseId == "-1"` are skipped (`continue`); `indent` is `""`
for the grade-wide section and three spaces for a class section. -/
def course_lines (course_list : List CourseVO) (indent : String)
    (records : List CourseScoreRecord) : String :=
  String.join (records.filterMap (fun record =>
    if record.courseId == some "-1" then none
    else some (indent ++ course_mapping_get course_list record.courseId ++ "：" ++
      score_rate_str record.scoreRate ++ "\n")))

/-- The grade-wide part of the report (lines 176-193): the first
`scoreRateVOList` entry with `classId == "-1"` if any (`next(..., None)`;
an entry found this way is a non-empty dict, hence truthy). -/
def grade_section (d : ReportData) : String :=
  match d.scoreRateVOList.find? (fun item => item.classId == some "-1") with
  | some overall_data =>
    "【全年级】\n" ++
    "全科得分率：" ++
      score_rate_str (get_score_rate overall_data.courseScoreRate "-1") ++
    "\n单科得分率：\n" ++
    course_lines d.courseVOList "" overall_data.courseScoreRate ++
    "\n"
  | none => "未找到全年级的数据！\n"

/-- One per-class block of the report (lines 200-213). -/
def class_section (course_list : List CourseVO) (class_data : ScoreRateVO) :
    String :=
  "班级：" ++ pyStrOpt class_data.className ++ "\n" ++
  "全科得分率：" ++
    score_rate_str (get_score_rate class_data.courseScoreRate "-1") ++
  "\n单科得分率：\n" ++
  course_lines course_list "   " class_data.courseScoreRate ++
  "\n"

/-- The full report string built by `update_widget_content` (lines 172-213)
from a well-formed POST result: the grade-wide section, then `【各班级】`
and one block per `scoreRateVOList` entry with `classId != "-1"`, in list
order. -/
def build_content (d : ReportData) : String :=
  grade_section d ++
  "【各班级】\n" ++
  String.join (d.scoreRateVOList.filterMap (fun class_data =>
    if class_data.classId == some "-1" then none
    else some (class_section d.courseVOList class_data)))

/-- The mutable plugin state the polling logic touches: the request headers
loaded in `__init__` and the `previous_data` cache (initially `None`). -/
structure PluginState where
  headers : List (String × String)
  previous_data : Option Fetched
  deriving Repr, DecidableEq

/-- `update_widget_content` (lines 157-236) restricted to its observable
effects on state and its produced report: fetch (an exception propagates and
leaves the state unchanged), store the result in `previous_data`, then format
it — `data["data"]["courseVOList"]` etc. raise a `KeyError`/`TypeError`
when the fetched value is not of the report shape, after the cache was
already updated.  The widget-tree manipulation is UI glue and has no effect
on this state. -/
def update_widget_content (env : Env) (s : PluginState) :
    PluginState × Except String String :=
  match fetch_and_update_data s.headers env s.previous_data with
  | (.error e, _) => (s, .error e)
  | (.ok data, _) =>
    let s' : PluginState := { s with previous_data := some data }
    match data with
    | .obj d => (s', .ok (build_content d))
    | .str _ => (s', .error "TypeError")
    | .raw _ => (s', .error "KeyError")

/-- One iteration of the `auto_update` loop body (lines 298-304): run the
update, catch and log any exception, then `time.sleep(1800)`.  Returns the
new state, whether the update raised, and the slept duration in seconds. -/
def auto_update_step (env : Env) (s : PluginState) :
    PluginState × Bool × Nat :=
  match update_widget_content env s with
  | (s', .ok _) => (s', (false, 1800))
  | (s', .error _) => (s', (true, 1800))

/-- `n` iterations of the `while True` loop of `auto_update`, the `k`-th
iteration run against network environment `envs k`; alongside the final
state, the trace of (raised?, sleep seconds) of every iteration. -/
def auto_update_run (envs : Nat → Env) (s : PluginState) :
    Nat → PluginState × List (Bool × Nat)
  | 0 => (s, [])
  | n + 1 =>
    let (s', trace) := auto_update_run envs s n
    let (s'', ev) := auto_update_step (envs n) s'
    (s'', trace ++ [ev])

/-- The configuration file as `load_headers` sees it: absent
(`FileNotFoundError`), or present and parsed with the `headers` key absent
(`KeyError`) or mapped to a string dictionary. -/
inductive ConfigFile where
  | missing
  | present (headers : Option (List (String × String)))
  deriving Repr, DecidableEq

/-- `config['headers']['t'] = value`: Python dict assignment overwrites the
value in place when the key exists and appends the binding otherwise. -/
def dict_set (d : List (String × String)) (k v : String) :
    List (String × String) :=
  if d.any (fun p => p.1 == k) then
    d.map (fun p => if p.1 == k then (k, v) else p)
  else d ++ [(k, v)]

/-- First value bound to a key in a header dictionary (Python dict lookup;
the embedding keeps keys unique so first = only). -/
def dict_get (d : List (String × String)) (k : String) : Option String :=
  (d.find? (fun p => p.1 == k)).map (fun p => p.2)

/-- `load_headers` (lines 78-90): a missing file (`FileNotFoundError`) or a
missing `headers` key (`KeyError`) is caught, logged and turned into `\x7b\x7d`;
otherwise the configured headers are returned with their `t` field set to
`str(int(time.time()))`, the current Unix time as a decimal string. -/
def load_headers (cfg : ConfigFile) (now : Nat) : List (String × String) :=
  match cfg with
  | .missing => []
  | .present none => []
  | .present (some headers) => dict_set headers "t" (toString now)

/-- `Plugin.__init__` restricted to the polling state (lines 73-74):
`self.headers = self.load_headers()`, `self.previous_data = None`. -/
def plugin_init (cfg : ConfigFile) (now : Nat) : PluginState :=
  { headers := load_headers cfg now, previous_data := none }

/-! ### Claim-level (spec-phrased) definitions, to be compared with the
definitions read off the source. -/

/-- All homework entries over all courses of the GET body, in order. -/
def all_homeworks (courses : List Course) : List Homework :=
  (courses.map (fun course => course.homeworkVOList)).flatten

/-- Claim phrasing of `templateIds`: the string conversions of every
homework's `templateId`, over all courses, whose `templateId` is not null. -/
def spec_template_ids (courses : List Course) : List String :=
  (all_homeworks courses).filterMap
    (fun homework => homework.templateId.map (fun t => toString t))

/-- Claim phrasing of `homeworkIds`: the concatenation of every homework's
`homeworkIds` lists, in the same order. -/
def spec_homework_ids (courses : List Course) : List Int :=
  ((all_homeworks courses).map (fun homework => homework.homeworkIds)).flatten

/-- Claim phrasing of the non-`"-1"` course lines of a section: one line per
record of a course other than the all-subject pseudo-course `"-1"`, named via
the `courseId`-to-`courseName` mapping, score rate suffixed per
`score_rate_str`. -/
def spec_other_course_lines (course_list : List CourseVO) (indent : String)
    (records : List CourseScoreRecord) : String :=
  String.join ((records.filter (fun r => !(r.courseId == some "-1"))).map
    (fun r => indent ++ course_mapping_get course_list r.courseId ++ "：" ++
      score_rate_str r.scoreRate ++ "\n"))

/-- Claim phrasing of the whole report: a grade-wide section built from the
`scoreRateVOList` entry with `classId` `"-1"` (its all-subject rate for
`courseId` `"-1"`, then one line per other course), followed by one per-class
section for every entry with `classId` different from `"-1"`, in list
order. -/
def spec_report (d : ReportData) : String :=
  (match d.scoreRateVOList.find? (fun item => item.classId == some "-1") with
   | some overall =>
     "【全年级】\n全科得分率：" ++
       score_rate_str (get_score_rate overall.courseScoreRate "-1") ++
     "\n单科得分率：\n" ++
     spec_other_course_lines d.courseVOList "" overall.courseScoreRate ++ "\n"
   | none => "未找到全年级的数据！\n") ++
  "【各班级】\n" ++
  String.join ((d.scoreRateVOList.filter (fun c => !(c.classId == some "-1"))).map
    (fun c => "班级：" ++ pyStrOpt c.className ++ "\n全科得分率：" ++
      score_rate_str (get_score_rate c.courseScoreRate "-1") ++
      "\n单科得分率：\n" ++
      spec_other_course_lines d.courseVOList "   " c.courseScoreRate ++ "\n"))

/-! ### Helper lemmas -/

/-- A `filterMap` that skips exactly the elements satisfying `p` is the
`map` over the `filter` by `¬ p`. -/
theorem filterMap_skip_eq_map_filter {α β : Type} (p : α → Bool) (f : α → β)
    (l : List α) :
    l.filterMap (fun a => if p a then none else some (f a)) =
      (l.filter (fun a => !p a)).map f := by
  induction l with
  | nil => rfl
  | cons a l ih =>
    by_cases h : p a <;> simp [List.filterMap_cons, List.filter_cons, h, ih]

theorem extract_template_ids_eq_spec (courses : List Course) :
    extract_template_ids courses = spec_template_ids courses := by
  induction courses with
  | nil => rfl
  | cons c cs ih =>
    simp [extract_template_ids, spec_template_ids, all_homeworks] at ih ⊢
    simp [ih]

theorem extract_homework_ids_eq_spec (courses : List Course) :
    extract_homework_ids courses = spec_homework_ids courses := by
  induction courses with
  | nil => rfl
  | cons c cs ih =>
    simp [extract_homework_ids, spec_homework_ids, all_homeworks] at ih ⊢
    simp [ih]

/-! ### Example data for concrete instantiations -/

/-- A GET body with one course holding two homeworks (one of them with a
null `templateId`) and two classes. -/
def exGetData : GetData :=
  { homeworkCourseVOList :=
      [{ homeworkVOList :=
          [{ templateId := some 11, homeworkIds := [1, 2] },
           { templateId := none, homeworkIds := [3] }] }]
    classVOList := [{ classId := "c1" }, { classId := "c2" }] }

/-- A small well-formed POST result: one real course, a grade-wide entry and
one class entry. -/
def exReport : ReportData :=
  { courseVOList := [{ courseId := "2", courseName := "数学" }]
    scoreRateVOList :=
      [{ classId := some "-1", className := some "全年级"
         courseScoreRate :=
           [{ courseId := some "-1", scoreRate := some "80.5" },
            { courseId := some "2", scoreRate := some "-" }] },
       { classId := some "9", className := some "九班"
         courseScoreRate :=
           [{ courseId := some "-1", scoreRate := some "79" },
            { courseId := some "2", scoreRate := none }] }] }

/-- A network in which both requests succeed with status 200 and well-formed
bodies. -/
def exEnvOk : Env :=
  { get_response := .ok { status_code := 200, body := .ok exGetData }
    post_response := fun _ =>
      .ok { status_code := 200, body := .ok (.obj exReport) } }

/-- A network in which the GET request itself raises (connection error). -/
def exEnvFail : Env :=
  { get_response := .error "ConnectionError"
    post_response := fun _ => .error "ConnectionError" }

/-! ### Claim theorems -/

/-- C1: a successful poll issues exactly two HTTP calls, a GET followed by a
POST, and the POST payload's `templateIds`, `homeworkIds` and `classIds` are
exactly the claim-phrased extractions from the GET body: string conversions
of the non-null template IDs over all homeworks of all courses, the
concatenation of every homework's `homeworkIds` in the same order, and the
`classId` of every `classVOList` entry. -/
theorem claim_c1_two_calls_payload (headers : List (String × String)) (env : Env)
    (prev : Option Fetched) (d : GetData) (b : Fetched)
    (hget : env.get_response = .ok { status_code := 200, body := .ok d })
    (hpost : env.post_response (build_payload d) =
      .ok { status_code := 200, body := .ok b }) :
    fetch_and_update_data headers env prev =
      (.ok b, [.get headers, .post headers (build_payload d)]) ∧
    (build_payload d).templateIds = spec_template_ids d.homeworkCourseVOList ∧
    (build_payload d).homeworkIds = spec_homework_ids d.homeworkCourseVOList ∧
    (build_payload d).classIds = d.classVOList.map (fun cls => cls.classId) := by
  refine ⟨?_, extract_template_ids_eq_spec _, extract_homework_ids_eq_spec _, rfl⟩
  unfold fetch_and_update_data attempt_fetch
  rw [hget]
  simp only [ne_eq, reduceIte]
  rw [hpost]
  simp

/-- C1 witness at a concrete network. -/
theorem claim_c1_two_calls_payload_witness :
    fetch_and_update_data [] exEnvOk none =
      (.ok (Fetched.obj exReport),
       [.get [], .post [] (build_payload exGetData)]) :=
  (claim_c1_two_calls_payload [] exEnvOk none exGetData (Fetched.obj exReport)
    rfl rfl).1

/-- C2 counterexample: the claim quantifies over every execution with
`previous_data ≠ None`, but the code tests Python truthiness
(`if self.previous_data:`), not `is not None`.  When the previous successful
POST returned a falsy JSON value (the empty object, modelled by
`Fetched.raw false`), the cache is not `None`, yet a later failing poll
re-raises instead of returning it. -/
theorem claim_c2_cex :
    some (Fetched.raw false) ≠ (none : Option Fetched) ∧
    (fetch_and_update_data [] exEnvFail (some (Fetched.raw false))).1 =
      .error "无法获取数据且没有之前的数据可用" :=
  ⟨by decide, rfl⟩

/-- C2 (amended): when any step of the fetch fails and the cached
`previous_data` is truthy, `fetch_and_update_data` returns it unchanged
instead of propagating the error. -/
theorem claim_c2_fallback (headers : List (String × String)) (env : Env)
    (pd : Fetched) (e : String)
    (hfail : (attempt_fetch headers env).1 = .error e)
    (htruthy : pyTruthy pd = true) :
    (fetch_and_update_data headers env (some pd)).1 = .ok pd := by
  unfold fetch_and_update_data
  rcases h : attempt_fetch headers env with ⟨r, calls⟩
  rw [h] at hfail
  simp only at hfail
  subst hfail
  simp [htruthy]

/-- C2 witness: a connection error with a well-formed cached result. -/
theorem claim_c2_fallback_witness :
    (fetch_and_update_data [] exEnvFail (some (Fetched.obj exReport))).1 =
      .ok (Fetched.obj exReport) :=
  claim_c2_fallback [] exEnvFail (Fetched.obj exReport) "ConnectionError" rfl rfl

/-- C3: when the fetch fails and no previous data is cached, the function
raises (the fixed message of line 155) and returns no data. -/
theorem claim_c3_no_fallback_raises (headers : List (String × String))
    (env : Env) (e : String)
    (hfail : (attempt_fetch headers env).1 = .error e) :
    (fetch_and_update_data headers env none).1 =
      .error "无法获取数据且没有之前的数据可用" := by
  unfold fetch_and_update_data
  rcases h : attempt_fetch headers env with ⟨r, calls⟩
  rw [h] at hfail
  simp only at hfail
  subst hfail
  simp

/-- C3 witness at a concrete failing network. -/
theorem claim_c3_no_fallback_raises_witness :
    (fetch_and_update_data [] exEnvFail none).1 =
      .error "无法获取数据且没有之前的数据可用" :=
  claim_c3_no_fallback_raises [] exEnvFail "ConnectionError" rfl

/-- C5: a response is accepted only with status exactly 200.  A non-200 GET
or POST status turns the attempt into the exception of lines 114/145 (which
then enters the catch-and-reuse-previous path), and — when both bodies are
well formed — the POST response JSON is the result of the attempt if and
only if both status codes are 200. -/
theorem claim_c5_status_200_gate (headers : List (String × String)) (env : Env) :
    (∀ rg, env.get_response = .ok rg → rg.status_code ≠ 200 →
      (attempt_fetch headers env).1 =
        .error ("GET请求失败，状态码：" ++ toString rg.status_code)) ∧
    (∀ d rp, env.get_response = .ok { status_code := 200, body := .ok d } →
      env.post_response (build_payload d) = .ok rp → rp.status_code ≠ 200 →
      (attempt_fetch headers env).1 =
        .error ("POST请求失败，状态码：" ++ toString rp.status_code)) ∧
    (∀ cg cp d b, env.get_response = .ok { status_code := cg, body := .ok d } →
      env.post_response (build_payload d) = .ok { status_code := cp, body := .ok b } →
      ((attempt_fetch headers env).1 = .ok b ↔ cg = 200 ∧ cp = 200)) := by
  refine ⟨?_, ?_, ?_⟩
  · intro rg hget hcode
    unfold attempt_fetch
    rw [hget]
    simp [hcode]
  · intro d rp hget hpost hcode
    unfold attempt_fetch
    rw [hget]
    simp only [ne_eq, reduceIte]
    rw [hpost]
    simp [hcode]
  · intro cg cp d b hget hpost
    unfold attempt_fetch
    rw [hget]
    by_cases hg : cg = 200
    · subst hg
      simp only [ne_eq, reduceIte]
      rw [hpost]
      by_cases hp : cp = 200
      · subst hp
        simp
      · simp [hp]
    · simp [hg]

/-- C5 witness: both requests succeed with status 200 at the concrete
network, so the POST body is the attempt's result. -/
theorem claim_c5_status_200_gate_witness :
    (attempt_fetch [] exEnvOk).1 = .ok (Fetched.obj exReport) :=
  ((claim_c5_status_200_gate [] exEnvOk).2.2 200 200 exGetData
    (Fetched.obj exReport) rfl rfl).mpr ⟨rfl, rfl⟩

/-- C4 counterexample: after a successful update at a concrete network, the
cache holds the raw fetched JSON value (the POST body), not the formatted
report string the spec's "keep last successful string" wording suggests. -/
theorem claim_c4_cex :
    ((update_widget_content exEnvOk
        { headers := [], previous_data := none }).1).previous_data =
      some (Fetched.obj exReport) ∧
    ((update_widget_content exEnvOk
        { headers := [], previous_data := none }).1).previous_data ≠
      some (Fetched.str (build_content exReport)) :=
  ⟨rfl, by decide⟩

/-- C4 (amended): the only cached state kept across polls is the last
successful fetch result — the raw POST JSON, not the formatted string.
After every successful update `previous_data` holds exactly the value the
fetch returned, a failing update leaves the state untouched, and the cache
is never cleared once set. -/
theorem claim_c4_cache_invariant (env : Env) (s : PluginState) :
    (∀ d, (fetch_and_update_data s.headers env s.previous_data).1 = .ok d →
      ((update_widget_content env s).1).previous_data = some d ∧
      ((update_widget_content env s).1).headers = s.headers) ∧
    (∀ e, (fetch_and_update_data s.headers env s.previous_data).1 = .error e →
      (update_widget_content env s).1 = s) ∧
    (s.previous_data ≠ none →
      ((update_widget_content env s).1).previous_data ≠ none) := by
  unfold update_widget_content
  rcases hf : fetch_and_update_data s.headers env s.previous_data with ⟨r, calls⟩
  refine ⟨?_, ?_, ?_⟩
  · intro d hd
    simp only at hd
    subst hd
    cases d <;> simp
  · intro e he
    simp only at he
    subst he
    simp
  · intro hne
    cases r with
    | ok d => cases d <;> simp
    | error e => simpa using hne

/-- C4 witness: the concrete successful update stores the fetched value. -/
theorem claim_c4_cache_invariant_witness :
    ((update_widget_content exEnvOk
        { headers := [], previous_data := none }).1).previous_data =
      some (Fetched.obj exReport) :=
  ((claim_c4_cache_invariant exEnvOk
      { headers := [], previous_data := none }).1 (Fetched.obj exReport) rfl).1

/-- C6: for every sequence of network environments — including ones whose
every poll raises — the polling loop performs all `n` iterations (an
exception is caught inside the loop body, never terminating it), every
iteration sleeps exactly 1800 seconds, and iteration `n + 1` is the catching
step applied to the state left by the first `n`. -/
theorem claim_c6_loop (envs : Nat → Env) (s : PluginState) (n : Nat) :
    ((auto_update_run envs s n).2).length = n ∧
    (∀ ev ∈ (auto_update_run envs s n).2, ev.2 = 1800) ∧
    auto_update_run envs s (n + 1) =
      ((auto_update_step (envs n) (auto_update_run envs s n).1).1,
       (auto_update_run envs s n).2 ++
         [(auto_update_step (envs n) (auto_update_run envs s n).1).2]) := by
  refine ⟨?_, ?_, rfl⟩
  · induction n with
    | zero => rfl
    | succ n ih => simp [auto_update_run, ih]
  · induction n with
    | zero => simp [auto_update_run]
    | succ n ih =>
      intro ev hev
      simp only [auto_update_run, List.mem_append, List.mem_singleton] at hev
      rcases hev with hev | hev
      · exact ih ev hev
      · subst hev
        unfold auto_update_step
        rcases update_widget_content (envs n) (auto_update_run envs s n).1 with
          ⟨s', r⟩
        cases r <;> rfl

theorem course_lines_eq_spec (course_list : List CourseVO) (indent : String)
    (records : List CourseScoreRecord) :
    course_lines course_list indent records =
      spec_other_course_lines course_list indent records := by
  unfold course_lines spec_other_course_lines
  rw [filterMap_skip_eq_map_filter (fun r => r.courseId == some "-1")
    (fun r => indent ++ course_mapping_get course_list r.courseId ++ "：" ++
      score_rate_str r.scoreRate ++ "\n") records]

/-- C7: the report string built by `update_widget_content` coincides, for
every well-formed result, with the claim-phrased description: the grade-wide
section for the `classId = "-1"` entry (its `courseId = "-1"` all-subject
rate, then one line per other course named through the course mapping),
followed by one per-class section for every entry with `classId ≠ "-1"` in
list order, each displayed rate suffixed with `%` unless it is the literal
string `"-"`. -/
theorem claim_c7_report_structure (d : ReportData) :
    build_content d = spec_report d := by
  unfold build_content spec_report
  rw [filterMap_skip_eq_map_filter (fun c => c.classId == some "-1")
    (fun c => class_section d.courseVOList c) d.scoreRateVOList]
  cases h : d.scoreRateVOList.find? (fun item => item.classId == some "-1") with
  | none =>
    simp only [grade_section, h, class_section, course_lines_eq_spec,
      String.append_assoc]
    rfl
  | some o =>
    simp only [grade_section, h, class_section, course_lines_eq_spec,
      String.append_assoc]
    rfl

/-- C8: only the literal string `"-"` suppresses the `%` suffix.  A missing
all-subject record or an absent `scoreRate` field yields Python `None`, which
the formatter renders as the text `None%`; in particular a class entry with
no `courseId = "-1"` record displays `全科得分率：None%`. -/
theorem claim_c8_none_percent :
    (∀ v : Option String, v ≠ some "-" →
      score_rate_str v = pyStrOpt v ++ "%") ∧
    score_rate_str none = "None%" ∧
    (∀ records : List CourseScoreRecord,
      (∀ r ∈ records, r.courseId ≠ some "-1") →
      score_rate_str (get_score_rate records "-1") = "None%") ∧
    (∀ records r, records.find? (fun i => i.courseId == some "-1") = some r →
      r.scoreRate = none →
      score_rate_str (get_score_rate records "-1") = "None%") ∧
    class_section []
        { classId := some "9", className := some "九班", courseScoreRate := [] } =
      "班级：九班\n全科得分率：None%\n单科得分率：\n\n" := by
  refine ⟨?_, rfl, ?_, ?_, rfl⟩
  · intro v hv
    simp [score_rate_str, hv]
  · intro records hnone
    have hfind : records.find? (fun item => item.courseId == some "-1") = none := by
      rw [List.find?_eq_none]
      intro r hr
      simpa using hnone r hr
    simp [get_score_rate, hfind, score_rate_str, pyStrOpt]
  · intro records r hfind hrate
    simp [get_score_rate, hfind, hrate, score_rate_str, pyStrOpt]

/-- C8 witness: an empty record list has no `courseId = "-1"` record. -/
theorem claim_c8_none_percent_witness :
    score_rate_str (get_score_rate [] "-1") = "None%" :=
  claim_c8_none_percent.2.2.1 [] (by simp)




theorem find?_overwrite_self (d : List (String × String)) (k v : String) :
    ((d.map (fun p => if p.1 == k then (k, v) else p)).find?
        (fun p => p.1 == k)) =
      if d.any (fun p => p.1 == k) then some (k, v) else none := by
  induction d with
  | nil => rfl
  | cons p d ih =>
    simp only [List.find?_map, beq_iff_eq] at ih
    by_cases hp : p.1 = k
    · simp [List.find?_cons, List.any_cons, Function.comp, hp, ih]
    · have hb : (p.1 == k) = false := by simp [hp]
      simp [List.find?_cons, List.any_cons, Function.comp, hp, ih]
      rw [hb, Bool.false_or]

theorem find?_overwrite_other (d : List (String × String)) (k k' v : String)
    (h : k' ≠ k) :
    ((d.map (fun p => if p.1 == k then (k, v) else p)).find?
        (fun p => p.1 == k')) = d.find? (fun p => p.1 == k') := by
  induction d with
  | nil => rfl
  | cons p d ih =>
    simp only [List.find?_map, beq_iff_eq] at ih
    have hk : k ≠ k' := fun hkk => h hkk.symm
    by_cases hp : p.1 = k
    · simp [List.find?_cons, Function.comp, hp, h, hk, ih]
    · by_cases hp' : p.1 = k' <;>
        simp [List.find?_cons, Function.comp, hp, hp', h, hk, ih]

theorem dict_get_dict_set_self (d : List (String × String)) (k v : String) :
    dict_get (dict_set d k v) k = some v := by
  unfold dict_get dict_set
  by_cases hd : d.any (fun p => p.1 == k)
  · rw [if_pos hd, find?_overwrite_self, if_pos hd]
    rfl
  · rw [if_neg hd, List.find?_append,
      show d.find? (fun p => p.1 == k) = none from List.find?_eq_none.mpr
        (fun x hx hpx => hd (List.any_eq_true.mpr ⟨x, hx, hpx⟩))]
    simp

theorem dict_get_dict_set_other (d : List (String × String)) (k k' v : String)
    (h : k' ≠ k) : dict_get (dict_set d k v) k' = dict_get d k' := by
  unfold dict_get dict_set
  by_cases hd : d.any (fun p => p.1 == k)
  · rw [if_pos hd, find?_overwrite_other d k k' v h]
  · rw [if_neg hd, List.find?_append]
    have hk : k ≠ k' := fun hkk => h hkk.symm
    simp [hk]

/-- The request list of a try block is `[GET]` or `[GET, POST payload]`. -/
theorem attempt_calls_shape (headers : List (String × String)) (env : Env) :
    (attempt_fetch headers env).2 = [.get headers] ∨
    ∃ pl, (attempt_fetch headers env).2 = [.get headers, .post headers pl] := by
  unfold attempt_fetch
  rcases env.get_response with e | rg
  · exact Or.inl rfl
  · dsimp only
    by_cases h200 : rg.status_code ≠ 200
    · rw [if_pos h200]
      exact Or.inl rfl
    · rw [if_neg h200]
      rcases rg.body with e | d
      · exact Or.inl rfl
      · dsimp only
        rcases env.post_response (build_payload d) with e | rp
        · exact Or.inr ⟨build_payload d, rfl⟩
        · dsimp only
          by_cases p200 : rp.status_code ≠ 200
          · rw [if_pos p200]
            exact Or.inr ⟨build_payload d, rfl⟩
          · rw [if_neg p200]
            exact Or.inr ⟨build_payload d, rfl⟩

/-- Both `requests` calls of a poll pass `headers=self.headers`: every
recorded request of the try block carries the state's headers. -/
theorem attempt_calls_use_headers (headers : List (String × String)) (env : Env) :
    ∀ c ∈ (attempt_fetch headers env).2, c.headersOf = headers := by
  intro c hc
  rcases attempt_calls_shape headers env with h | ⟨pl, h⟩ <;>
    rw [h] at hc <;> simp at hc
  · subst hc
    rfl
  · rcases hc with hc | hc <;> (subst hc; rfl)

/-- The except clause issues no request: a full poll records exactly the try
block's requests. -/
theorem fetch_calls_eq_attempt (headers : List (String × String)) (env : Env)
    (prev : Option Fetched) :
    (fetch_and_update_data headers env prev).2 = (attempt_fetch headers env).2 := by
  unfold fetch_and_update_data
  rcases h : attempt_fetch headers env with ⟨r, calls⟩
  cases r with
  | ok d => rfl
  | error e =>
    rcases prev with _ | pd
    · rfl
    · by_cases ht : pyTruthy pd <;> simp [ht]

theorem fetch_calls_use_headers (headers : List (String × String)) (env : Env)
    (prev : Option Fetched) :
    ∀ c ∈ (fetch_and_update_data headers env prev).2, c.headersOf = headers := by
  intro c hc
  rw [fetch_calls_eq_attempt] at hc
  exact attempt_calls_use_headers headers env c hc

/-- C9: a missing `config.json` or a missing `headers` key yields the empty
header dictionary after logging (so every HTTP request of every poll is then
sent with empty headers); when both exist, the returned headers are the
configured ones with the `t` field overwritten by the current Unix timestamp
as a decimal string, all other fields unchanged. -/
theorem claim_c9_load_headers (now : Nat) :
    load_headers .missing now = [] ∧
    load_headers (.present none) now = [] ∧
    (∀ hs, dict_get (load_headers (.present (some hs)) now) "t" =
      some (toString now)) ∧
    (∀ hs k, k ≠ "t" →
      dict_get (load_headers (.present (some hs)) now) k = dict_get hs k) ∧
    (∀ cfg env prev, cfg = ConfigFile.missing ∨ cfg = ConfigFile.present none →
      ∀ c ∈ (fetch_and_update_data (plugin_init cfg now).headers env prev).2,
        c.headersOf = []) := by
  refine ⟨rfl, rfl, ?_, ?_, ?_⟩
  · intro hs
    exact dict_get_dict_set_self hs "t" (toString now)
  · intro hs k hk
    exact dict_get_dict_set_other hs "t" k (toString now) hk
  · intro cfg env prev hcfg c hc
    have hempty : (plugin_init cfg now).headers = [] := by
      rcases hcfg with h | h <;> (subst h; rfl)
    have := fetch_calls_use_headers (plugin_init cfg now).headers env prev c hc
    rw [this, hempty]

/-- C9 witness at a concrete configuration and timestamp. -/
theorem claim_c9_load_headers_witness :
    dict_get
        (load_headers (.present (some [("User-Agent", "cw")])) 1735689600) "t" =
      some (toString 1735689600) ∧
    dict_get
        (load_headers (.present (some [("User-Agent", "cw")])) 1735689600)
        "User-Agent" =
      some "cw" :=
  ⟨(claim_c9_load_headers 1735689600).2.2.1 [("User-Agent", "cw")],
   ((claim_c9_load_headers 1735689600).2.2.2.1 [("User-Agent", "cw")]
      "User-Agent" (by decide)).trans rfl⟩

theorem template_ids_filter_length (hs : List Homework) :
    (hs.filterMap (fun homework =>
        homework.templateId.map (fun t => toString t))).length =
      (hs.filter (fun h => h.templateId.isSome)).length := by
  induction hs with
  | nil => rfl
  | cons h hs ih =>
    cases ht : h.templateId <;>
      simp [List.filterMap_cons, List.filter_cons, ht, ih]

/-- C10: a homework with a null `templateId` contributes nothing to
`templateIds` (the extraction keeps exactly the non-null ones) while all of
its `homeworkIds` are still included, so the two payload lists can disagree
about which homeworks they cover — concretely, a single null-template
homework yields an empty `templateIds` next to a non-empty `homeworkIds`. -/
theorem claim_c10_null_template_asymmetry :
    (∀ courses, (extract_template_ids courses).length =
      ((all_homeworks courses).filter (fun h => h.templateId.isSome)).length) ∧
    (∀ courses, extract_homework_ids courses =
      ((all_homeworks courses).map (fun h => h.homeworkIds)).flatten) ∧
    extract_template_ids
      [{ homeworkVOList := [{ templateId := none, homeworkIds := [42] }] }] = [] ∧
    extract_homework_ids
      [{ homeworkVOList := [{ templateId := none, homeworkIds := [42] }] }] =
      [42] := by
  refine ⟨?_, extract_homework_ids_eq_spec, rfl, rfl⟩
  intro courses
  rw [extract_template_ids_eq_spec, spec_template_ids]
  exact template_ids_filter_length (all_homeworks courses)

/-- C6 witness: two iterations against an always-failing network still run
both iterations and sleep 1800 seconds each. -/
theorem claim_c6_loop_witness :
    ((auto_update_run (fun _ => exEnvFail)
        { headers := [], previous_data := none } 2).2).length = 2 ∧
    ((true, 1800) : Bool × Nat).2 = 1800 :=
  ⟨(claim_c6_loop (fun _ => exEnvFail)
      { headers := [], previous_data := none } 2).1,
   (claim_c6_loop (fun _ => exEnvFail)
      { headers := [], previous_data := none } 2).2.1 (true, 1800) (by decide)⟩
